import Mathlib

/-
  Verification development for the pomox Pomodoro timer
  (session state machine and countdown engine of src/src/App.jsx).

  The React component state is embedded as an explicit record `AppState`.
  Each event handler or interval callback of the source becomes a pure
  state-transition function, translated statement by statement.  React
  reactive effects (the duration-resync useEffect at App.jsx lines 161-165)
  are embedded as an explicit post-render step `runEffects` that fires the
  effect body exactly when one of its declared dependencies changed, which
  is the React rule.  State updates dispatched from within an updater
  (onFinish writing remaining) land after the updater result in the React
  update queue, so the final value of a field written by both is the
  onFinish write; the embedding reflects that ordering.
-/

namespace Pomox

/-- The three timer modes of the source (MODES: focus, short, long). -/
inductive Mode
  | focus
  | short
  | long
deriving DecidableEq

/-- Settings record, fields and defaults as in App.jsx DEFAULTS. -/
structure Settings where
  pomodoroMin : Nat
  shortMin : Nat
  longMin : Nat
  longEvery : Nat
  autoStart : Bool
  sound : Bool
  notify : Bool
deriving DecidableEq

/-- DEFAULTS from App.jsx lines 11-19. -/
def DEFAULTS : Settings :=
  { pomodoroMin := 25
    shortMin := 5
    longMin := 15
    longEvery := 4
    autoStart := true
    sound := true
    notify := true }

/-- One entry of the daily stats map: focusSec and sessions counters. -/
structure DayStat where
  focusSec : Nat
  sessions : Nat
deriving DecidableEq

/-- The stats map, keyed by day strings; absent keys are none. -/
def Stats : Type := String → Option DayStat

/-- A stats map with no entries. -/
def emptyStats : Stats := fun _ => none

/-- Lookup with the lazy default used in the source:
    prev[k] or else the zero entry. -/
def getDay (stats : Stats) (k : String) : DayStat :=
  (stats k).getD { focusSec := 0, sessions := 0 }

/-- incrementTodayFocus from App.jsx lines 193-199: spread the previous map,
    overwrite the entry for today with focusSec increased by deltaSec,
    lazily creating the entry from the zero default. -/
def incrementTodayFocus (today : String) (deltaSec : Nat) (stats : Stats) : Stats :=
  fun k =>
    if k = today then
      some { getDay stats today with focusSec := (getDay stats today).focusSec + deltaSec }
    else stats k

/-- incSessionsToday from App.jsx lines 201-207: same shape, sessions + 1. -/
def incSessionsToday (today : String) (stats : Stats) : Stats :=
  fun k =>
    if k = today then
      some { getDay stats today with sessions := (getDay stats today).sessions + 1 }
    else stats k

/-- The full component state of App (App.jsx lines 143-159). -/
structure AppState where
  settings : Settings
  mode : Mode
  cycleCount : Nat
  isRunning : Bool
  remaining : Nat
  stats : Stats

/-- The duration map of the resync effect and of reset
    (focus maps to pomodoroMin, short to shortMin, long to longMin). -/
def durations (σ : Settings) : Mode → Nat
  | Mode.focus => σ.pomodoroMin
  | Mode.short => σ.shortMin
  | Mode.long => σ.longMin

/-- Body of the useEffect at App.jsx lines 161-165: if running, do nothing;
    otherwise set remaining to the full duration of the current mode. -/
def resyncEffect (s : AppState) : AppState :=
  if s.isRunning then s else { s with remaining := durations s.settings s.mode * 60 }

/-- The dependency array of that useEffect:
    [mode, settings.pomodoroMin, settings.shortMin, settings.longMin]. -/
def effectDeps (s : AppState) : Mode × Nat × Nat × Nat :=
  (s.mode, s.settings.pomodoroMin, s.settings.shortMin, s.settings.longMin)

/-- React re-runs the effect after a render exactly when a dependency
    changed; prev is the state of the previous render, next the new one. -/
def runEffects (prev next : AppState) : AppState :=
  if effectDeps next = effectDeps prev then next else resyncEffect next

/-- onFinish from App.jsx lines 216-234.  The source first calls
    setIsRunning(false) and at the end conditionally setIsRunning(true)
    when autoStart, which composes to isRunning := autoStart.  The
    ringAndNotify call is an external best-effort notifier with no effect
    on this state.  In the focus branch the long-break test is
    (cycleCount + 1) % settings.longEvery === 0 with the pre-increment
    closure value of cycleCount. -/
def onFinish (today : String) (s : AppState) : AppState :=
  if s.mode = Mode.focus then
    let nextIsLong := (s.cycleCount + 1) % s.settings.longEvery = 0
    let nextMode := if nextIsLong then Mode.long else Mode.short
    let nextLen := if nextIsLong then s.settings.longMin else s.settings.shortMin
    { s with
      isRunning := s.settings.autoStart
      cycleCount := s.cycleCount + 1
      stats := incSessionsToday today s.stats
      mode := nextMode
      remaining := nextLen * 60 }
  else
    { s with
      isRunning := s.settings.autoStart
      mode := Mode.focus
      remaining := s.settings.pomodoroMin * 60 }

/-- The setRemaining updater of the interval callback (App.jsx lines
    179-185) viewed as a function of the previous value: on the boundary
    it returns 0, otherwise the decrement. -/
def updaterResult (prev : Nat) : Nat :=
  if prev ≤ 1 then 0 else prev - 1

/-- The interval callback of App.jsx lines 178-190.  On the boundary
    (prev <= 1) the updater invokes onFinish and returns 0; the
    setRemaining dispatched inside onFinish is processed after the updater
    result, so the onFinish write to remaining is the surviving one.
    Afterwards, whenever the render snapshot of mode is focus, the
    callback records one focus second for today, boundary tick included.
    The source dispatches the focus increment before onFinish runs its
    sessions increment; the two updates commute (distinct fields of the
    same day entry), so a fixed application order is sound. -/
def tickCallback (today : String) (s : AppState) : AppState :=
  let s1 :=
    if s.remaining ≤ 1 then
      onFinish today { s with remaining := updaterResult s.remaining }
    else
      { s with remaining := updaterResult s.remaining }
  if s.mode = Mode.focus then
    { s1 with stats := incrementTodayFocus today 1 s1.stats }
  else s1

/-- One full tick: the interval callback followed by the render effects. -/
def tick (today : String) (s : AppState) : AppState :=
  runEffects s (tickCallback today s)

/-- skip from App.jsx line 242: setIsRunning(false) then onFinish, and the
    render effects of the resulting state change. -/
def skip (today : String) (s : AppState) : AppState :=
  runEffects s (onFinish today { s with isRunning := false })

/-- Mode tab selection (ModeTabs, App.jsx lines 391-417): the buttons are
    disabled while running, so the click is a no-op then; otherwise the
    mode is set and the render effects run. -/
def setModeTab (m : Mode) (s : AppState) : AppState :=
  if s.isRunning then s else runEffects s { s with mode := m }

/-- clamp from App.jsx line 68: Math.max(min, Math.min(max, n)). -/
def clamp (n mn mx : Int) : Int := max mn (min mx n)

/-- Clamp into a Nat field (all bounds in the source are positive). -/
def natClamp (n mn mx : Int) : Nat := (clamp n mn mx).toNat

/-- Settings update for pomodoroMin (App.jsx line 314): the onChange
    handler clamps to 1..180, then the render effects run. -/
def setPomodoroMin (v : Int) (s : AppState) : AppState :=
  runEffects s { s with settings := { s.settings with pomodoroMin := natClamp v 1 180 } }

/-- Settings update for shortMin (App.jsx line 315), clamped to 1..60. -/
def setShortMin (v : Int) (s : AppState) : AppState :=
  runEffects s { s with settings := { s.settings with shortMin := natClamp v 1 60 } }

/-- Settings update for longMin (App.jsx line 316), clamped to 1..90. -/
def setLongMin (v : Int) (s : AppState) : AppState :=
  runEffects s { s with settings := { s.settings with longMin := natClamp v 1 90 } }

/-- Settings update for longEvery (App.jsx line 317), clamped to 2..12. -/
def setLongEvery (v : Int) (s : AppState) : AppState :=
  runEffects s { s with settings := { s.settings with longEvery := natClamp v 2 12 } }

/-- A fresh load of the component with the given persisted values
    (App.jsx lines 143-159): isRunning initialises to useState(false) and
    is not persisted; mode, cycleCount, remaining, settings and stats come
    from storage.  React then runs every effect once on mount, so the
    resync effect body executes with isRunning false. -/
def initialLoad (σ : Settings) (m : Mode) (c r : Nat) (st : Stats) : AppState :=
  resyncEffect
    { settings := σ
      mode := m
      cycleCount := c
      isRunning := false
      remaining := r
      stats := st }

/-- Initialiser of useLocalStorageState (App.jsx lines 25-38): getItem
    yields null (none) or a string; a null or empty string is falsy and
    yields the initial value; otherwise JSON.parse runs and a parse throw
    (modelled as the parse oracle returning none) is caught and also
    yields the initial value. -/
def useLocalStorageInit {α : Type} (parse : String → Option α) (raw : Option String)
    (initial : α) : α :=
  match raw with
  | none => initial
  | some s => if s = "" then initial else (parse s).getD initial

/-- The SessionClock state proper: mode, remaining, cycleCount, isRunning
    (spec section 4.1), as a projection of the component state. -/
structure ClockView where
  mode : Mode
  remaining : Nat
  cycleCount : Nat
  isRunning : Bool
deriving DecidableEq

/-- Project the component state to the SessionClock state. -/
def clockView (s : AppState) : ClockView :=
  { mode := s.mode
    remaining := s.remaining
    cycleCount := s.cycleCount
    isRunning := s.isRunning }

/-- Civil calendar date (year, month, day) from a count of days since
    1970-01-01, the standard era-based conversion used to model the
    JavaScript Date UTC calendar. -/
def civilFromDays (z : Nat) : Nat × Nat × Nat :=
  let z2 := z + 719468
  let era := z2 / 146097
  let doe := z2 % 146097
  let yoe := (doe - doe / 1460 + doe / 36524 - doe / 146096) / 365
  let y := yoe + era * 400
  let doy := doe - (365 * yoe + yoe / 4 - yoe / 100)
  let mp := (5 * doy + 2) / 153
  let d := doy - (153 * mp + 2) / 5 + 1
  let m := if mp < 10 then mp + 3 else mp - 9
  (if m ≤ 2 then y + 1 else y, m, d)

/-- Decimal digit character for n % 10. -/
def digitChar (n : Nat) : Char := Char.ofNat (48 + n % 10)

/-- Two-digit zero-padded rendering, as in an ISO date string. -/
def pad2 (n : Nat) : String := String.mk [digitChar (n / 10), digitChar n]

/-- Four-digit year rendering, as in an ISO date string. -/
def year4 (n : Nat) : String :=
  String.mk [digitChar (n / 1000), digitChar (n / 100), digitChar (n / 10), digitChar n]

/-- Format a (year, month, day) triple as YYYY-MM-DD. -/
def formatDate (ymd : Nat × Nat × Nat) : String :=
  year4 ymd.1 ++ "-" ++ pad2 ymd.2.1 ++ "-" ++ pad2 ymd.2.2

/-- todayKey from App.jsx line 22: new Date().toISOString().slice(0, 10).
    toISOString renders the instant in UTC, so the key is the UTC calendar
    date of the current instant, here modelled as minutes since the Unix
    epoch. -/
def todayKey (tMinutes : Nat) : String :=
  formatDate (civilFromDays (tMinutes / 1440))

/-- Modelled from the spec: the spec words say the day key is the local
    calendar date at the moment of the call; for a zone east of UTC by
    tzOffsetMinutes the local calendar date is the UTC date of the instant
    shifted by that offset.  This definition exists only to be compared
    with todayKey, which the source derives from toISOString. -/
def localTodayKeySpec (tMinutes tzOffsetMinutes : Nat) : String :=
  formatDate (civilFromDays ((tMinutes + tzOffsetMinutes) / 1440))

/-- Leading decimal digits of a character list, none when there are none,
    used to model the radix-10 parseInt of the NumberField blur handler. -/
def leadingNat (cs : List Char) : Option Nat :=
  let ds := cs.takeWhile (fun c => c.isDigit)
  if ds.isEmpty then none
  else some (ds.foldl (fun acc c => acc * 10 + (c.toNat - 48)) 0)

/-- parseInt(str, 10) on a trimmed string: an optional sign followed by
    leading digits; none models NaN. -/
def jsParseInt (str : String) : Option Int :=
  match str.data with
  | [] => none
  | c :: rest =>
    if c = '-' then (leadingNat rest).map (fun n => -(n : Int))
    else if c = '+' then (leadingNat rest).map (fun n => (n : Int))
    else (leadingNat (c :: rest)).map (fun n => (n : Int))

/-- The NumberField blur handler (App.jsx lines 452-456) composed with a
    clamping onChange handler: parseInt(draft or "0", 10); when the result
    is NaN the handler reverts the draft and performs no update, leaving
    the stored value unchanged; otherwise the onChange handler stores the
    clamped number.  The returned value is the stored field after blur. -/
def numberFieldBlur (draft : String) (value mn mx : Int) : Int :=
  match jsParseInt (if draft = "" then "0" else draft) with
  | none => value
  | some n => clamp n mn mx

/-- One focus completion followed by the completion of the ensuing break:
    the double step after which the clock is back in Focus mode. -/
def focusBreakStep (today : String) (s : AppState) : AppState :=
  onFinish today (onFinish today s)

/-- Concrete state: running in Focus with default settings, one second
    from the boundary, empty stats. -/
def sampleBoundaryFocus : AppState :=
  { settings := DEFAULTS, mode := Mode.focus, cycleCount := 0, isRunning := true,
    remaining := 1, stats := emptyStats }

/-- Concrete state: in Focus with three completed cycles, about to finish
    the fourth focus session of the block (longEvery = 4). -/
def sampleFourthFocus : AppState :=
  { settings := DEFAULTS, mode := Mode.focus, cycleCount := 3, isRunning := false,
    remaining := 1500, stats := emptyStats }

/-- Concrete state: running in ShortBreak with three seconds left. -/
def sampleRunningShort3 : AppState :=
  { settings := DEFAULTS, mode := Mode.short, cycleCount := 0, isRunning := true,
    remaining := 3, stats := emptyStats }

/-- Concrete state: paused mid ShortBreak with 123 seconds left. -/
def samplePausedShort : AppState :=
  { settings := DEFAULTS, mode := Mode.short, cycleCount := 2, isRunning := false,
    remaining := 123, stats := emptyStats }

/-- Concrete state: running in ShortBreak with two seconds left, same
    mode, settings and cycleCount as samplePausedShort. -/
def sampleRunningShort2 : AppState :=
  { settings := DEFAULTS, mode := Mode.short, cycleCount := 2, isRunning := true,
    remaining := 2, stats := emptyStats }

/-- Concrete state: paused mid Focus session, 100 seconds left. -/
def samplePausedFocus : AppState :=
  { settings := DEFAULTS, mode := Mode.focus, cycleCount := 0, isRunning := false,
    remaining := 100, stats := emptyStats }

/- ------------------------------------------------------------------ -/
/- Helper lemmas shared by the claim theorems.                         -/
/- ------------------------------------------------------------------ -/

theorem runEffects_deps_eq (p n : AppState) (h : effectDeps n = effectDeps p) :
    runEffects p n = n := by
  unfold runEffects
  rw [if_pos h]

theorem runEffects_of_synced (p n : AppState)
    (h : n.remaining = durations n.settings n.mode * 60) :
    runEffects p n = n := by
  unfold runEffects resyncEffect
  split
  · rfl
  · split
    · rfl
    · rw [← h]

theorem runEffects_stats (p n : AppState) : (runEffects p n).stats = n.stats := by
  unfold runEffects resyncEffect
  split
  · rfl
  · split <;> rfl

theorem runEffects_settings (p n : AppState) : (runEffects p n).settings = n.settings := by
  unfold runEffects resyncEffect
  split
  · rfl
  · split <;> rfl

theorem onFinish_settings (today : String) (s : AppState) :
    (onFinish today s).settings = s.settings := by
  unfold onFinish
  split <;> rfl

theorem onFinish_synced (today : String) (s : AppState) :
    (onFinish today s).remaining = durations (onFinish today s).settings (onFinish today s).mode * 60 := by
  unfold onFinish
  by_cases hm : s.mode = Mode.focus
  · rw [if_pos hm]
    by_cases hl : (s.cycleCount + 1) % s.settings.longEvery = 0
    · simp only [hl, if_pos, if_true]
      rfl
    · simp only [hl, if_neg, if_false]
      rfl
  · rw [if_neg hm]
    rfl

theorem onFinish_clock_congr (today : String) (s t : AppState)
    (hm : s.mode = t.mode) (hc : s.cycleCount = t.cycleCount)
    (hσ : s.settings = t.settings) :
    clockView (onFinish today s) = clockView (onFinish today t) := by
  unfold onFinish clockView
  rw [hm, hc, hσ]
  split <;> rfl

theorem getDay_incFocus (today : String) (d : Nat) (st : Stats) :
    getDay (incrementTodayFocus today d st) today =
      { getDay st today with focusSec := (getDay st today).focusSec + d } := by
  unfold getDay incrementTodayFocus
  simp
  exact ⟨rfl, rfl⟩

theorem getDay_incSessions (today : String) (st : Stats) :
    getDay (incSessionsToday today st) today =
      { getDay st today with sessions := (getDay st today).sessions + 1 } := by
  unfold getDay incSessionsToday
  simp
  exact ⟨rfl, rfl⟩

theorem tick_nb (today : String) (s : AppState) (h : 2 ≤ s.remaining) :
    tick today s =
      { s with
        remaining := s.remaining - 1
        stats := if s.mode = Mode.focus then incrementTodayFocus today 1 s.stats else s.stats } := by
  have h1 : ¬ s.remaining ≤ 1 := by omega
  unfold tick tickCallback updaterResult
  rw [if_neg h1, if_neg h1]
  by_cases hm : s.mode = Mode.focus
  · rw [if_pos hm, if_pos hm]
    exact runEffects_deps_eq _ _ rfl
  · rw [if_neg hm, if_neg hm]
    exact runEffects_deps_eq _ _ rfl

theorem tick_iter (today : String) (s : AppState) (i : Nat) (hi : i + 1 ≤ s.remaining) :
    ((tick today)^[i] s).remaining = s.remaining - i ∧
    ((tick today)^[i] s).mode = s.mode ∧
    ((tick today)^[i] s).cycleCount = s.cycleCount ∧
    ((tick today)^[i] s).settings = s.settings ∧
    ((tick today)^[i] s).isRunning = s.isRunning := by
  induction i with
  | zero => exact ⟨rfl, rfl, rfl, rfl, rfl⟩
  | succ n ih =>
    obtain ⟨h1, h2, h3, h4, h5⟩ := ih (by omega)
    rw [Function.iterate_succ_apply']
    rw [tick_nb today _ (by omega)]
    refine ⟨?_, h2, h3, h4, h5⟩
    simp only [h1]
    omega

theorem tick_boundary (today : String) (s : AppState) (h : s.remaining ≤ 1) :
    clockView (tick today s) = clockView (onFinish today { s with remaining := 0 }) := by
  have hu : updaterResult s.remaining = 0 := by
    unfold updaterResult
    rw [if_pos h]
  unfold tick tickCallback
  rw [if_pos h, hu]
  by_cases hm : s.mode = Mode.focus
  · rw [if_pos hm]
    have hx := runEffects_of_synced s
      { onFinish today { s with remaining := 0 } with
        stats := incrementTodayFocus today 1 (onFinish today { s with remaining := 0 }).stats }
      (onFinish_synced today { s with remaining := 0 })
    rw [hx]
    rfl
  · rw [if_neg hm]
    rw [runEffects_of_synced _ _ (onFinish_synced today { s with remaining := 0 })]

theorem runEffects_running_remaining (p n : AppState) (hr : n.isRunning = true) :
    (runEffects p n).remaining = n.remaining := by
  unfold runEffects resyncEffect
  split
  · rfl
  · simp [hr]

theorem runEffects_resync_of_changed (p n : AppState) (hd : effectDeps n ≠ effectDeps p)
    (hr : n.isRunning = false) :
    (runEffects p n).remaining = durations n.settings n.mode * 60 := by
  unfold runEffects resyncEffect
  rw [if_neg hd]
  rw [if_neg (by rw [hr]; simp)]

theorem onFinish_focus_fields (today : String) (s : AppState) (hm : s.mode = Mode.focus) :
    (onFinish today s).cycleCount = s.cycleCount + 1 ∧
    (onFinish today s).mode =
      (if (s.cycleCount + 1) % s.settings.longEvery = 0 then Mode.long else Mode.short) ∧
    (onFinish today s).remaining =
      (if (s.cycleCount + 1) % s.settings.longEvery = 0 then s.settings.longMin
       else s.settings.shortMin) * 60 := by
  simp only [onFinish]
  rw [if_pos hm]
  exact ⟨rfl, rfl, rfl⟩

theorem onFinish_break_fields (today : String) (s : AppState) (hm : s.mode ≠ Mode.focus) :
    (onFinish today s).mode = Mode.focus ∧
    (onFinish today s).cycleCount = s.cycleCount ∧
    (onFinish today s).settings = s.settings := by
  simp only [onFinish]
  rw [if_neg hm]
  exact ⟨rfl, rfl, rfl⟩

/- ------------------------------------------------------------------ -/
/- Claim theorems.                                                     -/
/- ------------------------------------------------------------------ -/

/-- C1 counterexample: a running boundary tick in Focus mode (remaining
    1, so completion handling runs on this tick) still records one
    focusSeconds increment for today: the interval callback increments
    todays focusSec unconditionally whenever the render snapshot of mode
    is focus, boundary tick included.  The claim that the final second is
    NOT additionally recorded as a focusSeconds increment is therefore
    false. -/
theorem boundary_tick_records_focus_second :
    sampleBoundaryFocus.remaining ≤ 1 ∧
    sampleBoundaryFocus.mode = Mode.focus ∧
    sampleBoundaryFocus.isRunning = true ∧
    (getDay sampleBoundaryFocus.stats "2026-01-01").focusSec = 0 ∧
    (tick "2026-01-01" sampleBoundaryFocus).mode = Mode.short ∧
    (tick "2026-01-01" sampleBoundaryFocus).cycleCount = 1 ∧
    (getDay (tick "2026-01-01" sampleBoundaryFocus).stats "2026-01-01").focusSec = 1 := by
  decide

/-- C1 amended: while running, every tick taken with mode Focus records
    exactly one focusSeconds increment for the day key of the call,
    including the boundary tick, on which completion handling also runs;
    ticks taken in a break mode leave the stats map entirely unchanged. -/
theorem tick_focus_attribution (today : String) (s : AppState) (_hrun : s.isRunning = true) :
    (s.mode = Mode.focus →
       (getDay (tick today s).stats today).focusSec = (getDay s.stats today).focusSec + 1) ∧
    (s.mode ≠ Mode.focus → (tick today s).stats = s.stats) := by
  have hst : (tick today s).stats = (tickCallback today s).stats := runEffects_stats _ _
  constructor
  · intro hm
    rw [hst]
    by_cases hb : s.remaining ≤ 1
    · simp [tickCallback, onFinish, hm, hb, getDay_incFocus, getDay_incSessions]
    · simp [tickCallback, hm, hb, getDay_incFocus]
  · intro hm
    rw [hst]
    by_cases hb : s.remaining ≤ 1
    · simp [tickCallback, onFinish, hm, hb]
    · simp [tickCallback, hm, hb]

/-- C1 witness: the amended theorem applied to the concrete running
    boundary state. -/
theorem tick_focus_attribution_witness :
    (getDay (tick "2026-01-01" sampleBoundaryFocus).stats "2026-01-01").focusSec =
      (getDay sampleBoundaryFocus.stats "2026-01-01").focusSec + 1 :=
  (tick_focus_attribution "2026-01-01" sampleBoundaryFocus rfl).1 rfl

/-- C2: completing a focus session increments cycleCount by 1 and moves
    to LongBreak exactly when the post-increment cycleCount is divisible
    by longEvery, to ShortBreak otherwise, with remaining set to the full
    duration of the chosen break; iterating focus-plus-break completions
    shows the pattern repeats indefinitely: after k whole focus/break
    rounds the clock is back in Focus with cycleCount raised by k, and
    the next focus completion is long exactly when cycleCount + k + 1 is
    divisible by longEvery. -/
theorem focus_completion_cycle (today : String) (s : AppState) (hm : s.mode = Mode.focus) :
    ((onFinish today s).cycleCount = s.cycleCount + 1) ∧
    ((onFinish today s).mode = Mode.long ↔ (s.cycleCount + 1) % s.settings.longEvery = 0) ∧
    ((s.cycleCount + 1) % s.settings.longEvery ≠ 0 → (onFinish today s).mode = Mode.short) ∧
    ((onFinish today s).remaining = durations s.settings (onFinish today s).mode * 60) ∧
    (∀ k, ((focusBreakStep today)^[k] s).mode = Mode.focus ∧
          ((focusBreakStep today)^[k] s).cycleCount = s.cycleCount + k ∧
          ((focusBreakStep today)^[k] s).settings = s.settings) ∧
    (∀ k, ((onFinish today ((focusBreakStep today)^[k] s)).mode = Mode.long ↔
           (s.cycleCount + k + 1) % s.settings.longEvery = 0)) := by
  obtain ⟨hc, hmode, hrem⟩ := onFinish_focus_fields today s hm
  have hblock : ∀ k, ((focusBreakStep today)^[k] s).mode = Mode.focus ∧
      ((focusBreakStep today)^[k] s).cycleCount = s.cycleCount + k ∧
      ((focusBreakStep today)^[k] s).settings = s.settings := by
    intro k
    induction k with
    | zero => exact ⟨hm, rfl, rfl⟩
    | succ n ih =>
      obtain ⟨ihm, ihc, ihs⟩ := ih
      rw [Function.iterate_succ_apply']
      have h1 := onFinish_focus_fields today _ ihm
      have hne : (onFinish today ((focusBreakStep today)^[n] s)).mode ≠ Mode.focus := by
        rw [h1.2.1]
        split <;> simp
      have h2 := onFinish_break_fields today _ hne
      refine ⟨h2.1, ?_, ?_⟩
      · show (onFinish today (onFinish today ((focusBreakStep today)^[n] s))).cycleCount =
          s.cycleCount + (n + 1)
        rw [h2.2.1, h1.1, ihc]
        omega
      · show (onFinish today (onFinish today ((focusBreakStep today)^[n] s))).settings =
          s.settings
        rw [h2.2.2, onFinish_settings, ihs]
  refine ⟨hc, ?_, ?_, ?_, hblock, ?_⟩
  · rw [hmode]
    by_cases hl : (s.cycleCount + 1) % s.settings.longEvery = 0
    · simp [hl]
    · simp [hl]
  · intro hl
    rw [hmode, if_neg hl]
  · rw [hrem, hmode]
    by_cases hl : (s.cycleCount + 1) % s.settings.longEvery = 0
    · simp [hl, durations]
    · simp [hl, durations]
  · intro k
    obtain ⟨km, kc, ks⟩ := hblock k
    obtain ⟨-, kmode, -⟩ := onFinish_focus_fields today _ km
    rw [kmode, kc, ks]
    by_cases hl : (s.cycleCount + k + 1) % s.settings.longEvery = 0
    · simp [hl]
    · simp [hl]

/-- C3: from a running state with remaining R at least 1, each of the
    first R - 1 ticks strictly decreases remaining by exactly 1 and does
    not reach the completion guard; the R-th tick is the unique one on
    which the guard (remaining at most 1) holds, completion fires, and
    the countdown write of that tick (the setRemaining updater result)
    is 0. -/
theorem countdown_monotonic (today : String) (s : AppState) (R : Nat)
    (_hrun : s.isRunning = true) (hR : s.remaining = R) (h1 : 1 ≤ R) :
    (∀ i, i + 1 ≤ R → ((tick today)^[i] s).remaining = R - i) ∧
    (∀ i, i + 1 < R → ¬ ((tick today)^[i] s).remaining ≤ 1) ∧
    ((tick today)^[R - 1] s).remaining = 1 ∧
    updaterResult (((tick today)^[R - 1] s).remaining) = 0 := by
  have hiter : ∀ i, i + 1 ≤ R → ((tick today)^[i] s).remaining = R - i := by
    intro i hi
    have h := (tick_iter today s i (by omega)).1
    rw [hR] at h
    exact h
  have hone : ((tick today)^[R - 1] s).remaining = 1 := by
    rw [hiter (R - 1) (by omega)]
    omega
  refine ⟨hiter, ?_, hone, ?_⟩
  · intro i hlt
    rw [hiter i (by omega)]
    omega
  · rw [hone]
    rfl

/-- C3 witness: applied to the running ShortBreak state with three
    seconds remaining. -/
theorem countdown_monotonic_witness :
    ((tick "2026-01-01")^[2] sampleRunningShort3).remaining = 1 ∧
    updaterResult (((tick "2026-01-01")^[2] sampleRunningShort3).remaining) = 0 :=
  ⟨(countdown_monotonic "2026-01-01" sampleRunningShort3 3 rfl rfl (by omega)).2.2.1,
   (countdown_monotonic "2026-01-01" sampleRunningShort3 3 rfl rfl (by omega)).2.2.2⟩

/-- C5: skip produces the same resulting SessionClock state (mode,
    remaining, cycleCount, isRunning) as naturally ticking a running
    state down to the boundary, for the same starting mode, settings and
    cycleCount, regardless of the remaining time or running flag of the
    state being skipped.  The stats ledger is outside the clock state the
    claim fixes: natural ticking additionally accrues focus seconds. -/
theorem skip_equals_natural_completion (today : String) (s s2 : AppState) (R : Nat)
    (_hrun : s.isRunning = true) (hR : s.remaining = R) (h1 : 1 ≤ R)
    (hm : s2.mode = s.mode) (hc : s2.cycleCount = s.cycleCount)
    (hσ : s2.settings = s.settings) :
    clockView (skip today s2) = clockView ((tick today)^[R] s) := by
  obtain ⟨hrem, hmode, hcyc, hset, hrunning⟩ := tick_iter today s (R - 1) (by omega)
  have hdecomp : (tick today)^[R] s = tick today ((tick today)^[R - 1] s) := by
    conv_lhs => rw [show R = (R - 1) + 1 by omega]
    rw [Function.iterate_succ_apply']
  have hb : ((tick today)^[R - 1] s).remaining ≤ 1 := by
    rw [hrem, hR]
    omega
  rw [hdecomp, tick_boundary today _ hb]
  unfold skip
  rw [runEffects_of_synced _ _ (onFinish_synced today { s2 with isRunning := false })]
  apply onFinish_clock_congr
  · show s2.mode = ((tick today)^[R - 1] s).mode
    rw [hm, hmode]
  · show s2.cycleCount = ((tick today)^[R - 1] s).cycleCount
    rw [hc, hcyc]
  · show s2.settings = ((tick today)^[R - 1] s).settings
    rw [hσ, hset]

/-- C5 witness: skipping the paused ShortBreak with 123 seconds left
    lands in the same clock state as running the matching ShortBreak
    down from two seconds. -/
theorem skip_equals_natural_completion_witness :
    clockView (skip "2026-01-01" samplePausedShort) =
      clockView ((tick "2026-01-01")^[2] sampleRunningShort2) :=
  skip_equals_natural_completion "2026-01-01" sampleRunningShort2 samplePausedShort 2
    rfl rfl (by omega) rfl rfl rfl

/-- C7 counterexample: in a paused Focus state, changing shortMin (which
    is not the duration setting of the current mode, and changes neither
    the mode nor pomodoroMin) still re-syncs remaining from 100 to the
    full focus duration 1500, because the resync effect depends on all
    three duration settings.  The claim that the resync happens exactly
    when the mode or the duration setting for the current mode changes is
    therefore false. -/
theorem noncurrent_duration_change_resyncs :
    samplePausedFocus.mode = Mode.focus ∧
    samplePausedFocus.isRunning = false ∧
    samplePausedFocus.remaining = 100 ∧
    (setShortMin 10 samplePausedFocus).settings.pomodoroMin =
      samplePausedFocus.settings.pomodoroMin ∧
    (setShortMin 10 samplePausedFocus).mode = samplePausedFocus.mode ∧
    (setShortMin 10 samplePausedFocus).remaining = 1500 := by
  decide

/-- C7 amended: while not running, remaining is re-synced to the full
    duration of the current mode exactly when the mode or ANY of the
    three duration settings (pomodoroMin, shortMin, longMin) changes; a
    change that leaves the effect dependencies unchanged (same clamped
    value, or the longEvery field) leaves remaining alone, and while
    running no settings change or tab click alters the in-progress
    countdown. -/
theorem resync_on_any_duration_change (s : AppState) (v : Int) (m : Mode) :
    (s.isRunning = true →
       (setPomodoroMin v s).remaining = s.remaining ∧
       (setShortMin v s).remaining = s.remaining ∧
       (setLongMin v s).remaining = s.remaining ∧
       setModeTab m s = s) ∧
    (s.isRunning = false →
       (natClamp v 1 180 ≠ s.settings.pomodoroMin →
          (setPomodoroMin v s).remaining =
            durations { s.settings with pomodoroMin := natClamp v 1 180 } s.mode * 60) ∧
       (natClamp v 1 60 ≠ s.settings.shortMin →
          (setShortMin v s).remaining =
            durations { s.settings with shortMin := natClamp v 1 60 } s.mode * 60) ∧
       (natClamp v 1 90 ≠ s.settings.longMin →
          (setLongMin v s).remaining =
            durations { s.settings with longMin := natClamp v 1 90 } s.mode * 60) ∧
       (m ≠ s.mode → (setModeTab m s).remaining = durations s.settings m * 60)) ∧
    (natClamp v 1 180 = s.settings.pomodoroMin → setPomodoroMin v s = s) ∧
    (natClamp v 1 60 = s.settings.shortMin → setShortMin v s = s) ∧
    (natClamp v 1 90 = s.settings.longMin → setLongMin v s = s) ∧
    (setLongEvery v s).remaining = s.remaining := by
  refine ⟨?_, ?_, ?_, ?_, ?_, ?_⟩
  · intro h
    refine ⟨?_, ?_, ?_, ?_⟩
    · exact runEffects_running_remaining s _ h
    · exact runEffects_running_remaining s _ h
    · exact runEffects_running_remaining s _ h
    · simp [setModeTab, h]
  · intro h
    refine ⟨?_, ?_, ?_, ?_⟩
    · intro hne
      exact runEffects_resync_of_changed s _
        (fun heq => hne (congrArg (fun p => p.2.1) heq)) h
    · intro hne
      exact runEffects_resync_of_changed s _
        (fun heq => hne (congrArg (fun p => p.2.2.1) heq)) h
    · intro hne
      exact runEffects_resync_of_changed s _
        (fun heq => hne (congrArg (fun p => p.2.2.2) heq)) h
    · intro hne
      unfold setModeTab
      rw [if_neg (by rw [h]; simp)]
      exact runEffects_resync_of_changed s _
        (fun heq => hne (congrArg (fun p => p.1) heq)) h
  · intro hEq
    unfold setPomodoroMin
    rw [show { s.settings with pomodoroMin := natClamp v 1 180 } = s.settings by rw [hEq]]
    exact (runEffects_deps_eq s _ rfl).trans rfl
  · intro hEq
    unfold setShortMin
    rw [show { s.settings with shortMin := natClamp v 1 60 } = s.settings by rw [hEq]]
    exact (runEffects_deps_eq s _ rfl).trans rfl
  · intro hEq
    unfold setLongMin
    rw [show { s.settings with longMin := natClamp v 1 90 } = s.settings by rw [hEq]]
    exact (runEffects_deps_eq s _ rfl).trans rfl
  · show (runEffects s
        { s with settings := { s.settings with longEvery := natClamp v 2 12 } }).remaining
      = s.remaining
    rw [runEffects_deps_eq s
      { s with settings := { s.settings with longEvery := natClamp v 2 12 } } rfl]

/-- C7 witness: the paused mid-focus state with a changed shortMin is
    re-synced to the full duration of the current (focus) mode. -/
theorem resync_on_any_duration_change_witness :
    (setShortMin 10 samplePausedFocus).remaining =
      durations { samplePausedFocus.settings with shortMin := natClamp 10 1 60 }
        samplePausedFocus.mode * 60 :=
  ((resync_on_any_duration_change samplePausedFocus 10 Mode.short).2.1 rfl).2.1 (by decide)

/-- C8 counterexample: a wholly non-numeric draft is not clamped to a
    valid bound: the blur handler reverts to the previous stored value 25,
    which is neither bound of the pomodoroMin range.  The claim that
    non-numeric input is likewise clamped is therefore false. -/
theorem nonnumeric_input_reverts :
    numberFieldBlur "abc" 25 1 180 = 25 ∧ (25 : Int) ≠ 1 ∧ (25 : Int) ≠ 180 := by
  refine ⟨rfl, ?_, ?_⟩ <;> decide

/-- C8 amended: a draft that parses as a number is stored clamped to the
    range of its field (so updateSettings pomodoroMin 500 stores 180, and
    each of the four numeric fields clamps to its documented range);
    an empty draft parses as 0 and clamps to the minimum; a draft on
    which parseInt yields NaN is reverted to the previous stored value
    without an update. -/
theorem number_input_validation :
    (∀ (draft : String) (v mn mx n : Int),
       jsParseInt (if draft = "" then "0" else draft) = some n →
       numberFieldBlur draft v mn mx = clamp n mn mx) ∧
    (∀ (draft : String) (v mn mx : Int),
       jsParseInt (if draft = "" then "0" else draft) = none →
       numberFieldBlur draft v mn mx = v) ∧
    (∀ v : Int, numberFieldBlur "500" v 1 180 = 180) ∧
    (∀ v : Int, numberFieldBlur "" v 1 180 = 1) ∧
    (∀ t : AppState, (setPomodoroMin 500 t).settings.pomodoroMin = 180) ∧
    (∀ (t : AppState) (v : Int),
       (setPomodoroMin v t).settings.pomodoroMin = natClamp v 1 180 ∧
       (setShortMin v t).settings.shortMin = natClamp v 1 60 ∧
       (setLongMin v t).settings.longMin = natClamp v 1 90 ∧
       (setLongEvery v t).settings.longEvery = natClamp v 2 12) := by
  have hsome : ∀ (draft : String) (v mn mx n : Int),
      jsParseInt (if draft = "" then "0" else draft) = some n →
      numberFieldBlur draft v mn mx = clamp n mn mx := by
    intro draft v mn mx n h
    unfold numberFieldBlur
    rw [h]
  have hnone : ∀ (draft : String) (v mn mx : Int),
      jsParseInt (if draft = "" then "0" else draft) = none →
      numberFieldBlur draft v mn mx = v := by
    intro draft v mn mx h
    unfold numberFieldBlur
    rw [h]
  refine ⟨hsome, hnone, ?_, ?_, ?_, ?_⟩
  · intro v
    exact (hsome "500" v 1 180 500 rfl).trans (by decide)
  · intro v
    exact (hsome "" v 1 180 0 rfl).trans (by decide)
  · intro t
    have h := runEffects_settings t
      { t with settings := { t.settings with pomodoroMin := natClamp 500 1 180 } }
    unfold setPomodoroMin
    rw [h]
    show natClamp 500 1 180 = 180
    decide
  · intro t v
    refine ⟨?_, ?_, ?_, ?_⟩
    · exact congrArg (fun σ => σ.pomodoroMin) (runEffects_settings t _)
    · exact congrArg (fun σ => σ.shortMin) (runEffects_settings t _)
    · exact congrArg (fun σ => σ.longMin) (runEffects_settings t _)
    · exact congrArg (fun σ => σ.longEvery) (runEffects_settings t _)

/-- C8 witness: a numeric draft is clamped, a non-numeric draft keeps the
    prior value, and the 500 scenario stores 180. -/
theorem number_input_validation_witness :
    numberFieldBlur "42" 25 1 180 = clamp 42 1 180 ∧
    numberFieldBlur "xy" 25 1 180 = 25 ∧
    numberFieldBlur "500" 25 1 180 = 180 :=
  ⟨number_input_validation.1 "42" 25 1 180 42 rfl,
   number_input_validation.2.1 "xy" 25 1 180 rfl,
   number_input_validation.2.2.1 25⟩

/-- C2 witness: with longEvery 4 and cycleCount 3, one focus completion
    yields cycleCount 4 and moves to LongBreak with the full long
    duration (the spec scenario driving cycleCount from 3 to 4). -/
theorem focus_completion_cycle_witness :
    (onFinish "2026-01-01" sampleFourthFocus).cycleCount = sampleFourthFocus.cycleCount + 1 ∧
    (onFinish "2026-01-01" sampleFourthFocus).mode = Mode.long ∧
    (onFinish "2026-01-01" sampleFourthFocus).remaining =
      durations sampleFourthFocus.settings (onFinish "2026-01-01" sampleFourthFocus).mode * 60 :=
  ⟨(focus_completion_cycle "2026-01-01" sampleFourthFocus rfl).1,
   (focus_completion_cycle "2026-01-01" sampleFourthFocus rfl).2.1.mpr (by decide),
   (focus_completion_cycle "2026-01-01" sampleFourthFocus rfl).2.2.2.1⟩

/-- C4 counterexample: todayKey is built from toISOString, which renders
    the UTC instant.  At UTC instant 2025-12-31T23:30 (29453730 minutes
    after the epoch), in a zone 60 minutes east of UTC, the local
    calendar date is already 2026-01-01, yet todayKey yields the UTC date
    2025-12-31.  The claim that the day key is the local calendar date is
    therefore false. -/
theorem day_key_is_utc_not_local :
    todayKey 29453730 = "2025-12-31" ∧
    localTodayKeySpec 29453730 60 = "2026-01-01" ∧
    todayKey 29453730 ≠ localTodayKeySpec 29453730 60 := by
  refine ⟨rfl, rfl, ?_⟩
  decide

/-- C4 amended: the day key used by every stats mutation is the UTC
    calendar date of the instant of the call (the first ten characters of
    toISOString), formatted YYYY-MM-DD; each mutation is keyed by the day
    string current at its own call, so a mutation under a later day key
    leaves the entry of an earlier day key untouched (no retroactive
    reallocation across midnight). -/
theorem day_key_attribution (st : Stats) (d t1 t2 : Nat)
    (hne : todayKey t1 ≠ todayKey t2) :
    incrementTodayFocus (todayKey t2) d st (todayKey t1) = st (todayKey t1) ∧
    incSessionsToday (todayKey t2) st (todayKey t1) = st (todayKey t1) ∧
    todayKey t2 = formatDate (civilFromDays (t2 / 1440)) := by
  refine ⟨?_, ?_, rfl⟩
  · unfold incrementTodayFocus
    rw [if_neg hne]
  · unfold incSessionsToday
    rw [if_neg hne]

/-- C4 witness: applied at the two UTC instants 2025-12-31T23:30 and
    2026-01-01T00:30, whose day keys differ. -/
theorem day_key_attribution_witness :
    incrementTodayFocus (todayKey 29453790) 5 emptyStats (todayKey 29453730) =
      emptyStats (todayKey 29453730) ∧
    incSessionsToday (todayKey 29453790) emptyStats (todayKey 29453730) =
      emptyStats (todayKey 29453730) :=
  ⟨(day_key_attribution emptyStats 5 29453730 29453790 (by decide)).1,
   (day_key_attribution emptyStats 5 29453730 29453790 (by decide)).2.1⟩

/-- C6 amended: after a fresh load, isRunning is false (running never
    auto-resumes) and the persisted mode, cycleCount, settings and stats
    are unchanged, but remainingSeconds is re-synced to the full duration
    of the persisted mode by the mount run of the resync effect: the
    partially elapsed remainingSeconds does not survive the reload. -/
theorem initial_load_state (σ : Settings) (m : Mode) (c r : Nat) (st : Stats) :
    (initialLoad σ m c r st).isRunning = false ∧
    (initialLoad σ m c r st).mode = m ∧
    (initialLoad σ m c r st).cycleCount = c ∧
    (initialLoad σ m c r st).settings = σ ∧
    (initialLoad σ m c r st).stats = st ∧
    (initialLoad σ m c r st).remaining = durations σ m * 60 := by
  exact ⟨rfl, rfl, rfl, rfl, rfl, rfl⟩

/-- C6 counterexample: with default settings, a persisted focus-mode state
    with 90 seconds left loads with remaining 1500 (the full focus
    duration), not the persisted 90: the persisted timer progress does
    not survive a reload unchanged. -/
theorem reload_discards_partial_remaining :
    (initialLoad DEFAULTS Mode.focus 3 90 emptyStats).remaining = 1500 ∧
    (initialLoad DEFAULTS Mode.focus 3 90 emptyStats).remaining ≠ 90 ∧
    (initialLoad DEFAULTS Mode.focus 3 90 emptyStats).isRunning = false := by
  refine ⟨rfl, ?_, rfl⟩
  decide

/-- C9: loading a missing stored value, or one on which the JSON parse
    fails, yields the supplied initial value; instantiated at the settings
    key this yields DEFAULTS exactly. -/
theorem load_default_on_missing_or_malformed (α : Type) (parse : String → Option α)
    (initial : α) (raw : Option String)
    (hbad : ∀ str, raw = some str → parse str = none) :
    useLocalStorageInit parse raw initial = initial := by
  cases raw with
  | none => rfl
  | some str =>
    show (if str = "" then initial else (parse str).getD initial) = initial
    by_cases he : str = ""
    · rw [if_pos he]
    · rw [if_neg he, hbad str rfl]
      rfl

/-- C9 witness: a malformed settings string under a parse oracle that
    rejects it loads as DEFAULTS. -/
theorem load_default_witness :
    useLocalStorageInit (fun _ => (none : Option Settings)) (some "not valid json") DEFAULTS
      = DEFAULTS :=
  load_default_on_missing_or_malformed Settings (fun _ => none) DEFAULTS
    (some "not valid json") (fun _ _ => rfl)

/-- C10: each stats mutation touches only the entry for today, lazily
    created from the zero entry when absent; entries under every other
    key, and the field of the today entry the mutation does not target,
    are unchanged. -/
theorem stats_mutations_frame (stats : Stats) (today k : String) (d : Nat) :
    (k ≠ today → incrementTodayFocus today d stats k = stats k) ∧
    (k ≠ today → incSessionsToday today stats k = stats k) ∧
    (getDay (incrementTodayFocus today d stats) today).sessions = (getDay stats today).sessions ∧
    (getDay (incrementTodayFocus today d stats) today).focusSec = (getDay stats today).focusSec + d ∧
    (getDay (incSessionsToday today stats) today).focusSec = (getDay stats today).focusSec ∧
    (getDay (incSessionsToday today stats) today).sessions = (getDay stats today).sessions + 1 ∧
    (stats today = none →
       incrementTodayFocus today d stats today = some { focusSec := d, sessions := 0 }) ∧
    (stats today = none →
       incSessionsToday today stats today = some { focusSec := 0, sessions := 1 }) := by
  refine ⟨?_, ?_, ?_, ?_, ?_, ?_, ?_, ?_⟩
  · intro hk
    unfold incrementTodayFocus
    rw [if_neg hk]
  · intro hk
    unfold incSessionsToday
    rw [if_neg hk]
  · rw [getDay_incFocus]
  · rw [getDay_incFocus]
  · rw [getDay_incSessions]
  · rw [getDay_incSessions]
  · intro hnone
    unfold incrementTodayFocus getDay
    rw [if_pos rfl, hnone]
    simp
  · intro hnone
    unfold incSessionsToday getDay
    rw [if_pos rfl, hnone]
    simp

/-- C10 witness: applied to the empty stats map at concrete keys. -/
theorem stats_mutations_frame_witness :
    incrementTodayFocus "2026-01-01" 7 emptyStats "2026-01-02" = emptyStats "2026-01-02" ∧
    incrementTodayFocus "2026-01-01" 7 emptyStats "2026-01-01" =
      some { focusSec := 7, sessions := 0 } :=
  ⟨(stats_mutations_frame emptyStats "2026-01-01" "2026-01-02" 7).1 (by decide),
   (stats_mutations_frame emptyStats "2026-01-01" "2026-01-01" 7).2.2.2.2.2.2.1 rfl⟩

end Pomox
